import Mathlib

/-!
Shallow embedding of the a2a_gui_tool code generator
(`src/a2a_gui_tool/main.py`).  The GUI widget layer is excluded; what is
embedded is the data each widget's `get_data` returns, the validation
performed at the start of `MainWindow.handle_generate_code`, and the code
emission that follows it.  Python strings are Lean `String`s; the helpers
below mirror the Python string operations used by the source
(`str.strip`, `re.split`, `in`, `str.rsplit`, `str.split`).
-/

/-- Characters stripped by Python `str.strip()` (ASCII whitespace). -/
def isPySpace (c : Char) : Bool :=
  c = ' ' || c = '\t' || c = '\n' || c = '\x0d' || c = '\x0c' || c = '\x0b'

/-- Embedding of Python `str.strip()`: remove leading and trailing whitespace. -/
def pyStrip (s : String) : String :=
  String.mk (((s.toList.dropWhile isPySpace).reverse.dropWhile isPySpace).reverse)

/-- Split a character list at every character satisfying `p`, keeping empty
pieces, as Python `re.split` does with a single-character class. -/
def splitChars (p : Char → Bool) : List Char → List (List Char)
  | [] => [[]]
  | c :: cs =>
    if p c then [] :: splitChars p cs
    else
      match splitChars p cs with
      | [] => [[c]]
      | t :: ts => (c :: t) :: ts

/-- Embedding of `re.split(r'[,\n]', input_str)` from
`format_string_list_for_code` (main.py line 35). -/
def splitCN (s : String) : List String :=
  (splitChars (fun c => c = ',' || c = '\n') s.toList).map String.mk

/-- The token list built at main.py line 35:
`[item.strip() for item in re.split(r'[,\n]', input_str) if item.strip()]`. -/
def parseList (s : String) : List String :=
  ((splitCN s).map pyStrip).filter (fun t => ¬ t = "")

/-- One character of Python `repr` for a string quoted with `q`
(escape the backslash, the quote character, and control characters). -/
def pyCharEscape (q : Char) (c : Char) : List Char :=
  if c = '\\' then ['\\', '\\']
  else if c = q then ['\\', q]
  else if c = '\t' then ['\\', 't']
  else if c = '\x0d' then ['\\', 'r']
  else if c = '\n' then ['\\', 'n']
  else [c]

/-- Python `repr` of a string: single quotes unless the text holds a single
quote and no double quote (printable characters otherwise kept verbatim). -/
def pyStrRepr (s : String) : String :=
  let q : Char := if s.toList.contains '\x27' && !(s.toList.contains '\x22') then '\x22' else '\x27'
  String.mk (q :: (s.toList.flatMap (pyCharEscape q) ++ [q]))

/-- Python `repr` of a list of strings, as produced by an f-string holding a
list value: `[` + comma-separated `repr`s + `]`. -/
def pyListRepr (items : List String) : String :=
  "[" ++ String.intercalate ", " (items.map pyStrRepr) ++ "]"

/-- Embedding of `format_string_list_for_code` (main.py lines 26-36). -/
def format_string_list_for_code (input_str : String) : String :=
  if pyStrip input_str = "" then "[]"
  else pyListRepr (parseList input_str)

/-- Embedding of `format_single_string_for_code` (main.py lines 38-42):
triple quotes when the text holds a newline, plain double quotes otherwise. -/
def format_single_string_for_code (input_str : String) : String :=
  if '\n' ∈ input_str.toList then "\x22\x22\x22" ++ input_str ++ "\x22\x22\x22"
  else "\x22" ++ input_str ++ "\x22"

/-- Segment of `s` after its last dot: Python `s.split('.')[-1]`
(main.py line 640), equal to `s.rsplit('.', 1)[1]` when `s` holds a dot. -/
def afterLastDot (s : String) : String :=
  String.mk ((s.toList.reverse.takeWhile (fun c => ¬ c = '.')).reverse)

/-- Segment of `s` before its last dot: Python `s.rsplit('.', 1)[0]`
(main.py line 555), meaningful when `s` holds a dot. -/
def beforeLastDot (s : String) : String :=
  String.mk (((s.toList.reverse.dropWhile (fun c => ¬ c = '.')).drop 1).reverse)

/-- Rendering of a Python `bool` inside an f-string. -/
def boolPy : Bool → String
  | true => "True"
  | false => "False"

/-- Data returned by `SkillEntryWidget.get_data` (main.py lines 83-95):
`id`, `name`, `description` are stripped free text; `tags` and `examples`
already hold the formatted list strings produced by
`format_string_list_for_code`. -/
structure SkillData where
  id : String
  name : String
  description : String
  tags : String
  examples : String
deriving DecidableEq, Repr

/-- Data returned by `AgentCardWidget.get_data` (main.py lines 166-191);
the capabilities dictionary is flattened into the two booleans, and
`defaultInputModes` / `defaultOutputModes` hold formatted list strings. -/
structure AgentCardData where
  name : String
  description : String
  url : String
  version : String
  defaultInputModes : String
  defaultOutputModes : String
  streaming : Bool
  pushNotifications : Bool
  skills : List SkillData
deriving DecidableEq, Repr

/-- Data returned by `ExtendedAgentCardWidget.get_data` (main.py lines 248-266). -/
structure ExtendedCardData where
  name : String
  description : String
  version : String
  skills : List SkillData
deriving DecidableEq, Repr

/-- Data returned by `ServerConfigWidget.get_data` (main.py lines 331-345). -/
structure ServerData where
  agent_executor_class_name : String
  task_store : String
deriving DecidableEq, Repr

/-- State of `ServerConfigWidget` read by `handle_generate_code`: the executor
line edit, the task-store combo box text and the custom task-store line edit. -/
structure ServerWidgetState where
  agentExecutorText : String
  taskStoreComboText : String
  customTaskStoreText : String
deriving DecidableEq, Repr

/-- Embedding of `ServerConfigWidget.get_data` (main.py lines 331-345): the
task-store value is the stripped custom edit when the combo reads `Custom`,
the combo text itself otherwise. -/
def ServerWidgetState.get_data (w : ServerWidgetState) : ServerData :=
  { agent_executor_class_name := pyStrip w.agentExecutorText,
    task_store :=
      if w.taskStoreComboText = "Custom" then pyStrip w.customTaskStoreText
      else w.taskStoreComboText }

/-- Data returned by `RelationshipEntryWidget.get_data` (main.py lines 385-393). -/
structure RelationshipData where
  name : String
  url : String
deriving DecidableEq, Repr

/-- The text of one skill validation message (main.py lines 515, 518, 525,
528): location tag, one-based skill number, failing field. -/
def skillFailureMsg (tag : String) (i : Nat) (idEmpty : Bool) : String :=
  tag ++ " - Skill #" ++ toString (i + 1) ++
    (if idEmpty then ": ID is required." else ": Name is required.")

/-- The skill validation loops of `handle_generate_code` (main.py lines
512-529): walk the list in order, check `id` before `name`, stop at the
first empty required field. -/
def skills_error (tag : String) : Nat → List SkillData → Option String
  | _, [] => none
  | i, s :: rest =>
    if s.id = "" then some (skillFailureMsg tag i true)
    else if s.name = "" then some (skillFailureMsg tag i false)
    else skills_error tag (i + 1) rest

/-- The validation block of `handle_generate_code` (main.py lines 504-540):
returns the message of the first failing check, `none` when all pass.
`comboText` is `task_store_combo.currentText()` read at line 537. -/
def validate (a : AgentCardData) (e : ExtendedCardData) (server : ServerData)
    (comboText : String) : Option String :=
  if a.name = "" then some "Agent Card: Name is required."
  else if a.url = "" then some "Agent Card: URL is required."
  else
    match skills_error "Agent Card" 0 a.skills with
    | some msg => some msg
    | none =>
      match skills_error "Extended Agent Card" 0 e.skills with
      | some msg => some msg
      | none =>
        if server.agent_executor_class_name = "" then
          some "Server Configuration: Agent Executor Class Name is required."
        else if comboText = "Custom" ∧ server.task_store = "" then
          some "Server Configuration: Custom Task Store Class is required when \x27Custom\x27 is selected."
        else none

/-- The three unconditional import lines (main.py lines 547-549). -/
def fixedImports : List String :=
  ["from a2a.sdk.public_api.agent import AgentCard, AgentSkill, AgentCapabilities, ExtendedAgentCard",
   "from a2a.sdk.public_api.http import DefaultRequestHandler, A2AStarletteApplication",
   "from a2a.sdk.public_api.task_store.memory import InMemoryTaskStore"]

/-- Import section (main.py lines 546-557): the fixed imports plus, when the
task-store value is neither of the two combo literals and holds a dot, one
extra import splitting the value at its last dot. -/
def importLines (task_store_path : String) : List String :=
  fixedImports ++
    (if ¬ task_store_path = "InMemoryTaskStore" ∧ ¬ task_store_path = "Custom" ∧
        '.' ∈ task_store_path.toList then
      ["from " ++ beforeLastDot task_store_path ++ " import " ++ afterLastDot task_store_path]
    else [])

/-- Capabilities section (main.py lines 561-565). -/
def capabilitiesSection (streaming pushNotifications : Bool) : List String :=
  ["\n# --- Agent Capabilities Definition ---",
   "agent_capabilities = AgentCapabilities(",
   "    streaming=" ++ boolPy streaming ++ ",",
   "    push_notifications=" ++ boolPy pushNotifications ++ ",",
   ")"]

/-- The seven lines of one `AgentSkill(...)` constructor call
(main.py lines 571-577 and 609-615). -/
def skillLines (skill : SkillData) : List String :=
  ["    AgentSkill(",
   "        id=" ++ format_single_string_for_code skill.id ++ ",",
   "        name=" ++ format_single_string_for_code skill.name ++ ",",
   "        description=" ++ format_single_string_for_code skill.description ++ ",",
   "        tags=" ++ skill.tags ++ ",",
   "        examples=" ++ skill.examples ++ ",",
   "    ),"]

/-- Base-card skills section (main.py lines 567-580). -/
def skillsSection (skills : List SkillData) : List String :=
  ["\n# --- Main Agent Card Skills Definition ---"] ++
    (if ¬ skills = [] then
      ["agent_skills = ["] ++ skills.flatMap skillLines ++ ["]"]
    else ["agent_skills = []"])

/-- Base `AgentCard(...)` section (main.py lines 582-592). -/
def agentCardSection (a : AgentCardData) : List String :=
  ["\n# --- Main Agent Card Definition ---",
   "public_agent_card = AgentCard(",
   "    name=" ++ format_single_string_for_code a.name ++ ",",
   "    description=" ++ format_single_string_for_code a.description ++ ",",
   "    url=" ++ format_single_string_for_code a.url ++ ",",
   "    version=" ++ format_single_string_for_code a.version ++ ",",
   "    default_input_modes=" ++ a.defaultInputModes ++ ",",
   "    default_output_modes=" ++ a.defaultOutputModes ++ ",",
   "    capabilities=agent_capabilities,",
   "    skills=agent_skills,",
   ")"]

/-- The `extended_card_update_dict` entries rendered as `key=value` parts,
in insertion order (main.py lines 595-604): one part per non-empty field
among name, description, version. -/
def extUpdateParts (e : ExtendedCardData) : List String :=
  (if ¬ e.name = "" then ["name=" ++ format_single_string_for_code e.name] else []) ++
  (if ¬ e.description = "" then
    ["description=" ++ format_single_string_for_code e.description] else []) ++
  (if ¬ e.version = "" then ["version=" ++ format_single_string_for_code e.version] else [])

/-- Extended-card section (main.py lines 594-631): optional extended skills
list, then either a `from_agent_card` call carrying the non-empty override
parts (plus `skills=extended_agent_skills` when extended skills exist) or
the sentinel comment with `extended_public_agent_card = None`. -/
def extendedSection (e : ExtendedCardData) : List String :=
  ["\n# --- Extended Agent Card Definition (if any overrides/additions) ---"] ++
    (if ¬ e.skills = [] then
      ["extended_agent_skills = ["] ++ e.skills.flatMap skillLines ++ ["]"]
    else []) ++
    (let parts :=
      extUpdateParts e ++ (if ¬ e.skills = [] then ["skills=extended_agent_skills"] else [])
    if ¬ parts = [] then
      ["extended_public_agent_card = ExtendedAgentCard.from_agent_card(public_agent_card, " ++
        String.intercalate ", " parts ++ ")"]
    else
      ["# No extended agent card attributes or skills defined to override/add.",
       "extended_public_agent_card = None"])

/-- The task-store construction expression (main.py lines 634-643):
`InMemoryTaskStore()` for the default choice, `<last dot segment>()` for any
other value except the literal `Custom`, the placeholder otherwise. -/
def task_store_instance_code (task_store_val : String) : String :=
  if task_store_val = "InMemoryTaskStore" then "InMemoryTaskStore()"
  else if ¬ task_store_val = "Custom" then afterLastDot task_store_val ++ "()"
  else "None # Default or TODO: Specify Custom Task Store instance"

/-- The executor-name fallback at main.py line 645: the configured name when
non-empty, the default `MyAgentExecutor` otherwise. -/
def resolvedExecutorName (s : String) : String :=
  if ¬ s = "" then s else "MyAgentExecutor"

/-- Request-handler section (main.py lines 633-650). -/
def requestHandlerSection (server : ServerData) : List String :=
  ["\n# --- Request Handler Definition ---",
   "# TODO: Define your AgentExecutor class (e.g., " ++
     resolvedExecutorName server.agent_executor_class_name ++ ")",
   "http_handler = DefaultRequestHandler(",
   "    agent_executor=" ++ resolvedExecutorName server.agent_executor_class_name ++
     "(), # Assuming it\x27s instantiated here",
   "    task_store=" ++ task_store_instance_code server.task_store ++ ",",
   ")"]

/-- Server-application section (main.py lines 652-657). -/
def serverAppSection : List String :=
  ["\n# --- Server Application Definition ---",
   "app = A2AStarletteApplication(",
   "    agent_card=public_agent_card,",
   "    http_handler=http_handler,",
   "    extended_agent_card=extended_public_agent_card, # Will be None if not defined",
   ")"]

/-- Relationships section (main.py lines 659-666). -/
def relationshipsSection (rels : List RelationshipData) : List String :=
  ["\n# --- Defined Agent Relationships (Informational) ---"] ++
    (if ¬ rels = [] then
      ["# \x7b"] ++
        rels.map (fun r => "#    \x27" ++ r.name ++ "\x27: \x27" ++ r.url ++ "\x27,") ++
        ["# \x7d"]
    else ["# No agent relationships defined."])

/-- The full emitted line list of `handle_generate_code` (main.py lines
544-666), section by section in source order. -/
def emitCode (a : AgentCardData) (e : ExtendedCardData) (server : ServerData)
    (rels : List RelationshipData) : List String :=
  importLines server.task_store ++
  capabilitiesSection a.streaming a.pushNotifications ++
  skillsSection a.skills ++
  agentCardSection a ++
  extendedSection e ++
  requestHandlerSection server ++
  serverAppSection ++
  relationshipsSection rels

/-- Embedding of `MainWindow.handle_generate_code` (main.py lines 492-671):
on a validation failure the displayed text stays `prevOutput` and the
message is surfaced; on success the joined emitted lines replace it. -/
def handle_generate_code (a : AgentCardData) (e : ExtendedCardData)
    (sw : ServerWidgetState) (rels : List RelationshipData)
    (prevOutput : String) : String × Option String :=
  let server := sw.get_data
  match validate a e server sw.taskStoreComboText with
  | some msg => (prevOutput, some msg)
  | none => (String.intercalate "\n" (emitCode a e server rels), none)

/-- Spec-side canonical check list for the skill loops: for each skill, in
order, the id check then the name check, paired with the message each
would report. -/
def skillChecks (tag : String) : Nat → List SkillData → List (Bool × String)
  | _, [] => []
  | i, s :: rest =>
    (decide (s.id = ""), skillFailureMsg tag i true) ::
    (decide (s.name = ""), skillFailureMsg tag i false) ::
    skillChecks tag (i + 1) rest

/-- Spec-side canonical validation order of spec section 4.1: AgentCard name,
AgentCard url, base-card skills in order (id before name), extended-card
skills in order, executor class name, custom task-store path. -/
def canonicalChecks (a : AgentCardData) (e : ExtendedCardData) (server : ServerData)
    (comboText : String) : List (Bool × String) :=
  [(decide (a.name = ""), "Agent Card: Name is required."),
   (decide (a.url = ""), "Agent Card: URL is required.")] ++
  skillChecks "Agent Card" 0 a.skills ++
  skillChecks "Extended Agent Card" 0 e.skills ++
  [(decide (server.agent_executor_class_name = ""),
    "Server Configuration: Agent Executor Class Name is required."),
   (decide (comboText = "Custom" ∧ server.task_store = ""),
    "Server Configuration: Custom Task Store Class is required when \x27Custom\x27 is selected.")]

/-- The message of the first check in the list whose condition fired. -/
def firstFailure : List (Bool × String) → Option String
  | [] => none
  | (b, msg) :: rest => if b then some msg else firstFailure rest

/-! Concrete sample configurations used by witnesses. -/

/-- A base card missing its required name. -/
def agentMissingName : AgentCardData :=
  ⟨"", "", "http://localhost:9000/", "", "[]", "[]", false, false, []⟩

/-- A fully valid base card with one skill. -/
def agentValid : AgentCardData :=
  ⟨"Echo", "", "http://localhost:9000/", "1.0", "[]", "[]", true, false,
   [⟨"echo", "Echo Skill", "", "[]", "[]"⟩]⟩

/-- A base card whose second skill is missing its id. -/
def agentBadSkill : AgentCardData :=
  ⟨"Echo", "", "http://localhost:9000/", "", "[]", "[]", false, false,
   [⟨"ok", "Ok", "", "[]", "[]"⟩, ⟨"", "Bad", "", "[]", "[]"⟩]⟩

/-- An extended card with no overrides and no skills. -/
def extEmpty : ExtendedCardData := ⟨"", "", "", []⟩

/-- A valid server configuration using the default task store. -/
def serverValid : ServerData := ⟨"EchoExecutor", "InMemoryTaskStore"⟩

/-! Helper lemmas about the string primitives. -/

lemma mk_toList (s : String) : String.mk s.toList = s := by
  cases s
  rfl

lemma toList_mk (l : List Char) : (String.mk l).toList = l := rfl

lemma afterLastDot_of_no_dot (s : String) (h : ¬ '.' ∈ s.toList) : afterLastDot s = s := by
  unfold afterLastDot
  have hall : ∀ c ∈ s.toList.reverse, (fun c : Char => decide (¬ c = '.')) c = true := by
    intro c hc
    simp only [decide_eq_true_eq]
    intro hcd
    exact h (hcd ▸ List.mem_reverse.mp hc)
  rw [List.takeWhile_eq_self_iff.mpr hall, List.reverse_reverse, mk_toList]

lemma dropWhile_dot_cons (l : List Char) (h : '.' ∈ l) :
    ∃ t, l.dropWhile (fun c => ¬ c = '.') = '.' :: t := by
  induction l with
  | nil => cases h
  | cons c cs ih =>
    by_cases hc : c = '.'
    · subst hc
      exact ⟨cs, by simp [List.dropWhile_cons]⟩
    · have h' : '.' ∈ cs := by
        rcases List.mem_cons.mp h with hh | hh
        · exact absurd hh.symm hc
        · exact hh
      obtain ⟨t, ht⟩ := ih h'
      refine ⟨t, ?_⟩
      rw [List.dropWhile_cons, if_pos (by exact decide_eq_true hc), ht]

lemma rev_dot_decomp (r : List Char) (h : '.' ∈ r) :
    ((r.dropWhile (fun c => ¬ c = '.')).drop 1).reverse ++
      '.' :: (r.takeWhile (fun c => ¬ c = '.')).reverse = r.reverse := by
  obtain ⟨t, ht⟩ := dropWhile_dot_cons r h
  rw [ht]
  conv_rhs => rw [← List.takeWhile_append_dropWhile (fun c => decide (¬ c = '.')) r, ht]
  simp [List.reverse_append]

lemma before_after_decomp (s : String) (h : '.' ∈ s.toList) :
    (beforeLastDot s).toList ++ '.' :: (afterLastDot s).toList = s.toList := by
  unfold beforeLastDot afterLastDot
  rw [toList_mk, toList_mk]
  have hd := rev_dot_decomp s.toList.reverse (List.mem_reverse.mpr h)
  simpa using hd

lemma afterLastDot_no_dot_inside (s : String) : ¬ '.' ∈ (afterLastDot s).toList := by
  unfold afterLastDot
  rw [toList_mk]
  intro hmem
  have := List.mem_takeWhile_imp (List.mem_reverse.mp hmem)
  simp at this

/-- Claim C3: the list-parsing helper splits its input on commas and
newlines, trims each token, discards empty tokens and preserves the order
of the remaining tokens; when no non-empty token exists the result is the
empty sequence.  In particular `parseList "a, b\nc" = ["a","b","c"]`,
`parseList "  " = []` and `parseList "x,,y" = ["x","y"]`. -/
theorem parseList_spec :
    parseList "a, b\nc" = ["a", "b", "c"] ∧
    parseList "  " = [] ∧
    parseList "x,,y" = ["x", "y"] ∧
    (∀ s : String, (parseList s).Sublist ((splitCN s).map pyStrip)) ∧
    (∀ s : String, parseList s = [] ↔ ∀ t ∈ splitCN s, pyStrip t = "") ∧
    (∀ s : String, ∀ t ∈ parseList s, ¬ t = "") := by
  refine ⟨by decide, by decide, by decide, ?_, ?_, ?_⟩
  · intro s
    exact List.filter_sublist _
  · intro s
    constructor
    · intro hnil t ht
      by_contra hne
      have : pyStrip t ∈ parseList s := by
        unfold parseList
        rw [List.mem_filter]
        exact ⟨List.mem_map_of_mem pyStrip ht, by simpa using hne⟩
      rw [hnil] at this
      cases this
    · intro hall
      unfold parseList
      rw [List.filter_eq_nil_iff]
      intro t ht
      obtain ⟨u, hu, rfl⟩ := List.mem_map.mp ht
      simpa using hall u hu
  · intro s t ht
    have := (List.mem_filter.mp ht).2
    simpa using this

/-- Witness for C3: the empty-result direction applied at a concrete
whitespace-only input. -/
theorem parseList_spec_witness : parseList "  " = [] :=
  (parseList_spec.2.2.2.2.1 "  ").mpr (by decide)

/-- Claim C7: every free-text scalar rendered as a string literal is emitted
as a triple-quoted block literal when the text holds a newline and as a
single double-quoted literal otherwise, with the text embedded verbatim
(no escaping). -/
theorem quoting_rule (s : String) :
    ('\n' ∈ s.toList → format_single_string_for_code s = "\x22\x22\x22" ++ s ++ "\x22\x22\x22") ∧
    (¬ '\n' ∈ s.toList → format_single_string_for_code s = "\x22" ++ s ++ "\x22") := by
  unfold format_single_string_for_code
  constructor
  · intro h
    rw [if_pos h]
  · intro h
    rw [if_neg h]

/-- Witness for C7: the multiline and single-line cases at concrete inputs. -/
theorem quoting_rule_witness :
    format_single_string_for_code "ab\ncd" = "\x22\x22\x22ab\ncd\x22\x22\x22" ∧
    format_single_string_for_code "ab" = "\x22ab\x22" :=
  ⟨by rw [(quoting_rule "ab\ncd").1 (by decide)]; decide,
   by rw [(quoting_rule "ab").2 (by decide)]; decide⟩

/-- Claim C4: for a custom task-store value that is a dotted path, emission
adds exactly one extra import line `from <module> import <Class>`, where the
module is everything before the last dot and the class the final (dot-free)
segment, and the request-handler block instantiates `<Class>()`. -/
theorem custom_task_store_dotted_path (p : String) (exec : String)
    (h1 : ¬ p = "InMemoryTaskStore") (h2 : ¬ p = "Custom") (h3 : '.' ∈ p.toList) :
    importLines p =
      fixedImports ++ ["from " ++ beforeLastDot p ++ " import " ++ afterLastDot p] ∧
    (beforeLastDot p).toList ++ '.' :: (afterLastDot p).toList = p.toList ∧
    ¬ '.' ∈ (afterLastDot p).toList ∧
    task_store_instance_code p = afterLastDot p ++ "()" ∧
    ("    task_store=" ++ task_store_instance_code p ++ ",") ∈
      requestHandlerSection ⟨exec, p⟩ := by
  refine ⟨?_, before_after_decomp p h3, afterLastDot_no_dot_inside p, ?_, ?_⟩
  · unfold importLines
    rw [if_pos ⟨h1, h2, h3⟩]
  · unfold task_store_instance_code
    rw [if_neg h1, if_pos h2]
  · unfold requestHandlerSection
    simp

/-- Witness for C4: the spec's own example path `mypkg.mymodule.MyStore`. -/
theorem custom_task_store_dotted_path_witness :
    importLines "mypkg.mymodule.MyStore" =
      fixedImports ++ ["from mypkg.mymodule import MyStore"] ∧
    task_store_instance_code "mypkg.mymodule.MyStore" = "MyStore()" := by
  have h := custom_task_store_dotted_path "mypkg.mymodule.MyStore" "E"
    (by decide) (by decide) (by decide)
  refine ⟨?_, ?_⟩
  · rw [h.1]
    decide
  · rw [h.2.2.2.1]
    decide

/-- Counterexample to claim C5, at two concrete malformed inputs.  The
custom path `"x."` has an empty class segment, yet emission does not treat
it as a plain non-split value: an extra import line `from x import ` is
emitted and the instance expression is `()` rather than the value rendered
verbatim.  The dot-free custom path `"Custom"` (reachable by entering the
literal text `Custom` in the custom box) is not rendered verbatim either:
its instance expression is the placeholder, not `Custom()`. -/
theorem custom_path_empty_segment_split :
    importLines "x." = fixedImports ++ ["from x import "] ∧
    ¬ importLines "x." = fixedImports ∧
    task_store_instance_code "x." = "()" ∧
    ¬ task_store_instance_code "x." = "x.()" ∧
    task_store_instance_code "Custom" =
      "None # Default or TODO: Specify Custom Task Store instance" ∧
    ¬ task_store_instance_code "Custom" = "Custom()" := by
  refine ⟨by decide, by decide, by decide, by decide, by decide, by decide⟩

/-- Claim C5 as amended: for a custom task-store path missing a dot and
distinct from the literal `Custom`, emission does not fail and treats the
value as a plain non-split value: no extra import line is emitted and the
value itself is used verbatim in the instance expression.  (The literal
`Custom` yields the placeholder expression instead, and paths that do hold
a dot are always split at the last dot, even when a segment is empty.) -/
theorem custom_path_missing_dot_verbatim (p : String)
    (h0 : ¬ '.' ∈ p.toList) (h2 : ¬ p = "Custom") :
    importLines p = fixedImports ∧
    task_store_instance_code p = p ++ "()" := by
  constructor
  · unfold importLines
    rw [if_neg (by rintro ⟨-, -, hdot⟩; exact h0 hdot)]
    simp
  · unfold task_store_instance_code
    by_cases h1 : p = "InMemoryTaskStore"
    · rw [if_pos h1, h1]
      decide
    · rw [if_neg h1, if_pos h2, afterLastDot_of_no_dot p h0]

/-- Witness for the amended C5: the dot-free custom value `MyStore`. -/
theorem custom_path_missing_dot_verbatim_witness :
    importLines "MyStore" = fixedImports ∧
    task_store_instance_code "MyStore" = "MyStore()" :=
  custom_path_missing_dot_verbatim "MyStore" (by decide) (by decide)

/-- Claim C9: when the custom task-store option is selected and the entered
path strips to the literal `Custom`, the resolved task-store value is
`Custom`, the required-path validation check cannot fire (the value is
non-empty), no extra import line is emitted, and the request-handler block
uses the placeholder line instead of instantiating the entered value. -/
theorem custom_literal_task_store_placeholder (sw : ServerWidgetState)
    (hc : sw.taskStoreComboText = "Custom") (hv : pyStrip sw.customTaskStoreText = "Custom") :
    sw.get_data.task_store = "Custom" ∧
    ¬ (sw.taskStoreComboText = "Custom" ∧ sw.get_data.task_store = "") ∧
    importLines sw.get_data.task_store = fixedImports ∧
    task_store_instance_code sw.get_data.task_store =
      "None # Default or TODO: Specify Custom Task Store instance" := by
  have hts : sw.get_data.task_store = "Custom" := by
    unfold ServerWidgetState.get_data
    simp [hc, hv]
  refine ⟨hts, ?_, ?_, ?_⟩
  · rintro ⟨-, hempty⟩
    rw [hts] at hempty
    exact absurd hempty (by decide)
  · rw [hts]
    decide
  · rw [hts]
    decide

/-- Witness for C9: a concrete widget state with `Custom` selected and the
literal text `Custom` entered. -/
theorem custom_literal_task_store_placeholder_witness :
    (ServerWidgetState.get_data ⟨"EchoExecutor", "Custom", "Custom"⟩).task_store = "Custom" ∧
    task_store_instance_code
        (ServerWidgetState.get_data ⟨"EchoExecutor", "Custom", "Custom"⟩).task_store =
      "None # Default or TODO: Specify Custom Task Store instance" := by
  have h := custom_literal_task_store_placeholder ⟨"EchoExecutor", "Custom", "Custom"⟩
    (by decide) (by decide)
  exact ⟨h.1, h.2.2.2⟩

/-- Claim C8: when validation fails, the generate operation stops before any
emission — the displayed output is left exactly as it was; when validation
passes, the full emitted text is produced in one step. -/
theorem validation_failure_aborts_emission (a : AgentCardData) (e : ExtendedCardData)
    (sw : ServerWidgetState) (rels : List RelationshipData) (prevOutput : String) :
    (∀ msg, validate a e sw.get_data sw.taskStoreComboText = some msg →
      handle_generate_code a e sw rels prevOutput = (prevOutput, some msg)) ∧
    (validate a e sw.get_data sw.taskStoreComboText = none →
      handle_generate_code a e sw rels prevOutput =
        (String.intercalate "\n" (emitCode a e sw.get_data rels), none)) := by
  constructor
  · intro msg hmsg
    simp only [handle_generate_code]
    rw [hmsg]
  · intro hok
    simp only [handle_generate_code]
    rw [hok]

/-- Witness for C8: a configuration missing the card name leaves the
previously displayed text `OLD` untouched. -/
theorem validation_failure_aborts_emission_witness :
    handle_generate_code agentMissingName extEmpty ⟨"EchoExecutor", "InMemoryTaskStore", ""⟩ [] "OLD" =
      ("OLD", some "Agent Card: Name is required.") :=
  (validation_failure_aborts_emission agentMissingName extEmpty
      ⟨"EchoExecutor", "InMemoryTaskStore", ""⟩ [] "OLD").1
    "Agent Card: Name is required." (by decide)

/-- Claim C6: the extended-card overrides set holds exactly the non-empty
fields among name, description, version, plus a skills entry exactly when
the extended skills list is non-empty (emitted as a preceding second
skills-list block); a non-empty overrides set yields a single
copy-with-overrides `from_agent_card` call carrying exactly those parts,
an empty one yields the sentinel comment and a `None` binding.  For
ExtendedAgentCard{name:"", description:"", version:"2.0", skills:[]} the
call carries exactly the single field `version`. -/
theorem extended_card_overrides (e : ExtendedCardData) :
    (extUpdateParts e = [] ↔ (e.name = "" ∧ e.description = "" ∧ e.version = "")) ∧
    (∀ part, part ∈ extUpdateParts e ↔
      ((¬ e.name = "" ∧ part = "name=" ++ format_single_string_for_code e.name) ∨
       (¬ e.description = "" ∧ part = "description=" ++ format_single_string_for_code e.description) ∨
       (¬ e.version = "" ∧ part = "version=" ++ format_single_string_for_code e.version))) ∧
    (e.skills = [] → ¬ extUpdateParts e = [] →
      extendedSection e =
        ["\n# --- Extended Agent Card Definition (if any overrides/additions) ---",
         "extended_public_agent_card = ExtendedAgentCard.from_agent_card(public_agent_card, " ++
           String.intercalate ", " (extUpdateParts e) ++ ")"]) ∧
    (e.skills = [] → extUpdateParts e = [] →
      extendedSection e =
        ["\n# --- Extended Agent Card Definition (if any overrides/additions) ---",
         "# No extended agent card attributes or skills defined to override/add.",
         "extended_public_agent_card = None"]) ∧
    (¬ e.skills = [] →
      extendedSection e =
        ["\n# --- Extended Agent Card Definition (if any overrides/additions) ---",
         "extended_agent_skills = ["] ++ e.skills.flatMap skillLines ++
        ["]",
         "extended_public_agent_card = ExtendedAgentCard.from_agent_card(public_agent_card, " ++
           String.intercalate ", " (extUpdateParts e ++ ["skills=extended_agent_skills"]) ++ ")"]) ∧
    extendedSection ⟨"", "", "2.0", []⟩ =
      ["\n# --- Extended Agent Card Definition (if any overrides/additions) ---",
       "extended_public_agent_card = ExtendedAgentCard.from_agent_card(public_agent_card, version=\x222.0\x22)"] := by
  refine ⟨?_, ?_, ?_, ?_, ?_, by decide⟩
  · unfold extUpdateParts
    by_cases h1 : e.name = "" <;> by_cases h2 : e.description = "" <;>
      by_cases h3 : e.version = "" <;> simp [h1, h2, h3]
  · intro part
    unfold extUpdateParts
    by_cases h1 : e.name = "" <;> by_cases h2 : e.description = "" <;>
      by_cases h3 : e.version = "" <;> simp [h1, h2, h3]
  · intro h1 h2
    unfold extendedSection
    simp [h1, h2]
  · intro h1 h2
    unfold extendedSection
    simp [h1, h2]
  · intro h1
    unfold extendedSection
    simp [h1]

/-- Witness for C6: the sentinel branch at an extended card with no
overrides and no skills. -/
theorem extended_card_overrides_witness :
    extendedSection extEmpty =
      ["\n# --- Extended Agent Card Definition (if any overrides/additions) ---",
       "# No extended agent card attributes or skills defined to override/add.",
       "extended_public_agent_card = None"] :=
  (extended_card_overrides extEmpty).2.2.2.1 rfl (by decide)

lemma firstFailure_cons_decide (P : Prop) [Decidable P] (m : String)
    (rest : List (Bool × String)) :
    firstFailure ((decide P, m) :: rest) = if P then some m else firstFailure rest := by
  by_cases h : P <;> simp [firstFailure, h]

lemma firstFailure_append (xs ys : List (Bool × String)) :
    firstFailure (xs ++ ys) =
      match firstFailure xs with
      | some m => some m
      | none => firstFailure ys := by
  induction xs with
  | nil => simp [firstFailure]
  | cons p rest ih =>
    obtain ⟨b, m⟩ := p
    cases b <;> simp [firstFailure, ih]

lemma firstFailure_skillChecks (tag : String) (l : List SkillData) :
    ∀ i, firstFailure (skillChecks tag i l) = skills_error tag i l := by
  induction l with
  | nil => intro i; rfl
  | cons s rest ih =>
    intro i
    simp only [skillChecks, skills_error, firstFailure]
    by_cases h1 : s.id = "" <;> by_cases h2 : s.name = "" <;> simp [h1, h2, ih]

/-- Claim C1: validation checks the configuration in the canonical order
(AgentCard.name, AgentCard.url, each base-card skill in order with id
before name, each extended-card skill in order, the executor class name,
the custom task-store path) and reports the first failure in that order;
in particular a configuration missing AgentCard.name or AgentCard.url is
reported with an `Agent Card` message before any other check fires. -/
theorem validate_first_failure_canonical (a : AgentCardData) (e : ExtendedCardData)
    (server : ServerData) (comboText : String) :
    validate a e server comboText = firstFailure (canonicalChecks a e server comboText) ∧
    ((a.name = "" ∨ a.url = "") →
      validate a e server comboText = some "Agent Card: Name is required." ∨
      validate a e server comboText = some "Agent Card: URL is required.") := by
  constructor
  · have hc : canonicalChecks a e server comboText =
        (decide (a.name = ""), "Agent Card: Name is required.") ::
        (decide (a.url = ""), "Agent Card: URL is required.") ::
        (skillChecks "Agent Card" 0 a.skills ++
          (skillChecks "Extended Agent Card" 0 e.skills ++
            [(decide (server.agent_executor_class_name = ""),
              "Server Configuration: Agent Executor Class Name is required."),
             (decide (comboText = "Custom" ∧ server.task_store = ""),
              "Server Configuration: Custom Task Store Class is required when \x27Custom\x27 is selected.")])) := by
      simp [canonicalChecks]
    rw [hc, firstFailure_cons_decide, firstFailure_cons_decide, firstFailure_append,
      firstFailure_skillChecks "Agent Card" a.skills 0, firstFailure_append,
      firstFailure_skillChecks "Extended Agent Card" e.skills 0,
      firstFailure_cons_decide, firstFailure_cons_decide]
    unfold validate
    by_cases h1 : a.name = ""
    · rw [if_pos h1, if_pos h1]
    rw [if_neg h1, if_neg h1]
    by_cases h2 : a.url = ""
    · rw [if_pos h2, if_pos h2]
    rw [if_neg h2, if_neg h2]
    cases skills_error "Agent Card" 0 a.skills with
    | some m => rfl
    | none =>
      cases skills_error "Extended Agent Card" 0 e.skills with
      | some m => rfl
      | none =>
        by_cases h5 : server.agent_executor_class_name = ""
        · rw [if_pos h5, if_pos h5]
        rw [if_neg h5, if_neg h5]
        by_cases h6 : comboText = "Custom" ∧ server.task_store = ""
        · rw [if_pos h6, if_pos h6]
        · rw [if_neg h6, if_neg h6]
          rfl
  · intro h
    by_cases h1 : a.name = ""
    · left
      simp [validate, h1]
    · right
      have h2 : a.url = "" := h.resolve_left h1
      simp [validate, h1, h2]

/-- Witness for C1: a configuration missing the card name reports the
`Agent Card` name failure, which is also the first canonical failure. -/
theorem validate_first_failure_canonical_witness :
    validate agentMissingName extEmpty serverValid "InMemoryTaskStore" =
      firstFailure (canonicalChecks agentMissingName extEmpty serverValid "InMemoryTaskStore") ∧
    validate agentMissingName extEmpty serverValid "InMemoryTaskStore" =
      some "Agent Card: Name is required." := by
  have h := validate_first_failure_canonical agentMissingName extEmpty serverValid "InMemoryTaskStore"
  refine ⟨h.1, ?_⟩
  rcases h.2 (Or.inl rfl) with hh | hh
  · exact hh
  · exact absurd ((show validate agentMissingName extEmpty serverValid "InMemoryTaskStore" =
        some "Agent Card: Name is required." by decide).symm.trans hh) (by decide)

lemma skills_error_none (tag : String) (l : List SkillData) :
    ∀ k, (∀ j (hj : j < l.length), ¬ (l.get ⟨j, hj⟩).id = "" ∧ ¬ (l.get ⟨j, hj⟩).name = "") →
      skills_error tag k l = none := by
  induction l with
  | nil => intro k _; rfl
  | cons s rest ih =>
    intro k hall
    have hhead := hall 0 (Nat.succ_pos _)
    simp only [List.get] at hhead
    simp only [skills_error, if_neg hhead.1, if_neg hhead.2]
    exact ih (k + 1) fun j hj => by
      have := hall (j + 1) (Nat.succ_lt_succ hj)
      simpa [List.get] using this

lemma skills_error_at (tag : String) (l : List SkillData) :
    ∀ (k i : Nat) (hi : i < l.length),
      (∀ j (hj : j < l.length), j < i → ¬ (l.get ⟨j, hj⟩).id = "" ∧ ¬ (l.get ⟨j, hj⟩).name = "") →
      ((l.get ⟨i, hi⟩).id = "" ∨ (l.get ⟨i, hi⟩).name = "") →
      skills_error tag k l =
        some (skillFailureMsg tag (k + i) (decide ((l.get ⟨i, hi⟩).id = ""))) := by
  induction l with
  | nil => intro k i hi; exact absurd hi (by simp)
  | cons s rest ih =>
    intro k i hi hprev hbad
    cases i with
    | zero =>
      simp only [List.get] at hbad ⊢
      by_cases h1 : s.id = ""
      · simp [skills_error, h1]
      · have h2 : s.name = "" := hbad.resolve_left h1
        simp [skills_error, h1, h2]
    | succ i' =>
      have hhead := hprev 0 (Nat.succ_pos _) (Nat.succ_pos i')
      simp only [List.get] at hhead
      have hi' : i' < rest.length := Nat.lt_of_succ_lt_succ hi
      simp only [List.get] at hbad ⊢
      simp only [skills_error, if_neg hhead.1, if_neg hhead.2]
      have hrec := ih (k + 1) i' hi'
        (fun j hj hji => by
          have := hprev (j + 1) (Nat.succ_lt_succ hj) (Nat.succ_lt_succ hji)
          simpa [List.get] using this)
        hbad
      rw [hrec, show k + 1 + i' = k + (i' + 1) from by omega]

/-- Claim C2: in either skills list, a skill with empty id or empty name at
index `i` makes validation fail with the message naming that list and the
one-based number `i + 1` (the id check before the name check), provided no
earlier skill in the same list fails — so valid earlier skills never
trigger a spurious failure. -/
theorem validate_skill_failure_indexed (a : AgentCardData) (e : ExtendedCardData)
    (server : ServerData) (comboText : String)
    (hname : ¬ a.name = "") (hurl : ¬ a.url = "") :
    (∀ i (hi : i < a.skills.length),
      (∀ j (hj : j < a.skills.length), j < i →
        ¬ (a.skills.get ⟨j, hj⟩).id = "" ∧ ¬ (a.skills.get ⟨j, hj⟩).name = "") →
      ((a.skills.get ⟨i, hi⟩).id = "" ∨ (a.skills.get ⟨i, hi⟩).name = "") →
      validate a e server comboText =
        some (skillFailureMsg "Agent Card" i (decide ((a.skills.get ⟨i, hi⟩).id = "")))) ∧
    (∀ i (hi : i < e.skills.length),
      (∀ j (hj : j < a.skills.length),
        ¬ (a.skills.get ⟨j, hj⟩).id = "" ∧ ¬ (a.skills.get ⟨j, hj⟩).name = "") →
      (∀ j (hj : j < e.skills.length), j < i →
        ¬ (e.skills.get ⟨j, hj⟩).id = "" ∧ ¬ (e.skills.get ⟨j, hj⟩).name = "") →
      ((e.skills.get ⟨i, hi⟩).id = "" ∨ (e.skills.get ⟨i, hi⟩).name = "") →
      validate a e server comboText =
        some (skillFailureMsg "Extended Agent Card" i (decide ((e.skills.get ⟨i, hi⟩).id = "")))) := by
  constructor
  · intro i hi hprev hbad
    have hA := skills_error_at "Agent Card" a.skills 0 i hi hprev hbad
    rw [Nat.zero_add] at hA
    simp [validate, hname, hurl, hA]
  · intro i hi hbase hprev hbad
    have hA := skills_error_none "Agent Card" a.skills 0 hbase
    have hB := skills_error_at "Extended Agent Card" e.skills 0 i hi hprev hbad
    rw [Nat.zero_add] at hB
    simp [validate, hname, hurl, hA, hB]

/-- Witness for C2: a base card whose first skill is valid and whose second
skill is missing its id reports `Agent Card - Skill #2: ID is required.`. -/
theorem validate_skill_failure_indexed_witness :
    validate agentBadSkill extEmpty serverValid "InMemoryTaskStore" =
      some "Agent Card - Skill #2: ID is required." := by
  have h := (validate_skill_failure_indexed agentBadSkill extEmpty serverValid
      "InMemoryTaskStore" (by decide) (by decide)).1 1 (by decide)
    (fun j hj hji => by
      have hj0 : j = 0 := Nat.lt_one_iff.mp hji
      subst hj0
      exact ⟨by show ¬ ("ok" : String) = ""; decide,
             by show ¬ ("Ok" : String) = ""; decide⟩)
    (Or.inl (by decide))
  rw [h]
  decide

/-- Claim C10: once validation has passed, the executor-name fallback to
`MyAgentExecutor` is unreachable — the configured name is non-empty, the
fallback resolves to it unchanged, and the request-handler block
instantiates it verbatim. -/
theorem executor_fallback_unreachable (a : AgentCardData) (e : ExtendedCardData)
    (server : ServerData) (comboText : String)
    (h : validate a e server comboText = none) :
    ¬ server.agent_executor_class_name = "" ∧
    resolvedExecutorName server.agent_executor_class_name = server.agent_executor_class_name ∧
    requestHandlerSection server =
      ["\n# --- Request Handler Definition ---",
       "# TODO: Define your AgentExecutor class (e.g., " ++
         server.agent_executor_class_name ++ ")",
       "http_handler = DefaultRequestHandler(",
       "    agent_executor=" ++ server.agent_executor_class_name ++
         "(), # Assuming it\x27s instantiated here",
       "    task_store=" ++ task_store_instance_code server.task_store ++ ",",
       ")"] := by
  have hex : ¬ server.agent_executor_class_name = "" := by
    intro hempty
    unfold validate at h
    repeat' split at h
    all_goals simp_all
  have hres : resolvedExecutorName server.agent_executor_class_name =
      server.agent_executor_class_name := by
    unfold resolvedExecutorName
    rw [if_pos hex]
  exact ⟨hex, hres, by unfold requestHandlerSection; rw [hres]⟩

/-- Witness for C10: a fully valid configuration instantiates
`EchoExecutor` verbatim. -/
theorem executor_fallback_unreachable_witness :
    resolvedExecutorName serverValid.agent_executor_class_name =
      serverValid.agent_executor_class_name :=
  (executor_fallback_unreachable agentValid extEmpty serverValid "InMemoryTaskStore"
    (by decide)).2.1
